import Mathlib

set_option linter.unusedVariables false

/-!
Shallow embedding of the botsarchive client's response-interpretation layer
(`botsarchive/client.py`, `botsarchive/types.py`, `botsarchive/enums.py`).
The HTTP transport is outside the model: each client operation is embedded as
a pure function from the decoded JSON response body to its result, with the
Python runtime errors the code can raise made explicit in an `Except`.
-/

namespace botsarchive

/-- JSON values as decoded from a response body. Numbers are modelled as
integers: the fixtures used below carry only integer numerals, and no
statement settled here characterises behaviour on fractional numerals (in
particular, no statement asserts failure of an `int(...)` coercion for any
number). Object fields are listed in order, with distinct keys as produced
by a JSON decoder. -/
inductive JSON where
  | null : JSON
  | bool (b : Bool) : JSON
  | num (n : Int) : JSON
  | str (s : String) : JSON
  | arr (elems : List JSON) : JSON
  | obj (fields : List (String × JSON)) : JSON

/-- First-occurrence lookup in an association list, modelling Python dict
indexing for decoder-produced objects (whose keys are distinct). -/
def lookupKey (key : String) : List (String × JSON) → Option JSON
  | [] => none
  | (k, v) :: rest => if k == key then some v else lookupKey key rest

/-- Field access on an object: `none` when the key is absent or the value is
not an object. -/
def JSON.get (j : JSON) (key : String) : Option JSON :=
  match j with
  | .obj fs => lookupKey key fs
  | _ => none

/-- Python truthiness (`bool(x)`) of a decoded JSON value. -/
def JSON.truthy : JSON → Bool
  | .null => false
  | .bool b => b
  | .num n => n != 0
  | .str s => !s.isEmpty
  | .arr xs => !xs.isEmpty
  | .obj fs => !fs.isEmpty

/-- Python `x == lit` for a string literal `lit`: cross-type equality is
`False`, string-to-string equality is character equality. -/
def eqStr (x : JSON) (lit : String) : Bool :=
  match x with
  | .str s => s == lit
  | _ => false

/-- ASCII whitespace characters recognised by Python's `str.split()` and
`int()`. Python additionally treats further Unicode characters (such as
`\xa0`) as whitespace; this development models the ASCII fragment, and no
statement settled here asserts failure or non-splitting on a character
outside it. -/
def pyIsSpace (c : Char) : Bool :=
  c == ' ' || c == '\t' || c == '\n' || c == '\r' || c == '\x0b' || c == '\x0c'

/-- Accumulator pass behind `pySplit`: splits a character list on whitespace
runs, producing no empty tokens. -/
def wordsAux : List Char → List Char → List (List Char)
  | [], acc => if acc.isEmpty then [] else [acc.reverse]
  | c :: cs, acc =>
    if pyIsSpace c then
      if acc.isEmpty then wordsAux cs [] else acc.reverse :: wordsAux cs []
    else wordsAux cs (c :: acc)

/-- Python `s.split()` with no separator: split on whitespace runs, no empty
tokens (whitespace per `pyIsSpace`, so the ASCII fragment of Python's
splitting). -/
def pySplit (s : String) : List String :=
  (wordsAux s.toList []).map String.mk

/-- Python `s.lstrip(chars)`: removes every leading character contained in
`chars`. -/
def pyLstrip (s : String) (chars : List Char) : String :=
  String.mk (s.toList.dropWhile (fun c => chars.contains c))

/-- Continuation of Python's base-10 integer-literal grammar after the first
digit: digits, with single underscores allowed between digits. -/
def digitsRest : List Char → Nat → Option Nat
  | [], acc => some acc
  | c :: cs, acc =>
    if c == '_' then
      match cs with
      | c2 :: cs2 =>
        if c2.isDigit then digitsRest cs2 (acc * 10 + (c2.toNat - 48)) else none
      | [] => none
    else if c.isDigit then digitsRest cs (acc * 10 + (c.toNat - 48)) else none

/-- Python's base-10 integer-literal digit part: a first digit, then
`digitsRest`. -/
def parseDigits : List Char → Option Nat
  | [] => none
  | c :: cs => if c.isDigit then digitsRest cs (c.toNat - 48) else none

/-- Python `int(s)` for a string argument: optional surrounding whitespace, an
optional sign, then a base-10 digit sequence; `none` models `ValueError`.
Like `pyIsSpace` and `parseDigits`, this is the ASCII fragment of `int()`:
Python additionally accepts Unicode decimal digits and Unicode whitespace,
and no statement settled here asserts failure on a string outside the ASCII
fragment. -/
def pyStrToInt (s : String) : Option Int :=
  match ((s.toList.dropWhile pyIsSpace).reverse.dropWhile pyIsSpace).reverse with
  | [] => none
  | c :: rest =>
    if c == '+' then (parseDigits rest).map Int.ofNat
    else if c == '-' then (parseDigits rest).map (fun n => -(Int.ofNat n))
    else (parseDigits (c :: rest)).map Int.ofNat

/-- Runtime failures the client code can hit while interpreting a response:
`KeyError`, `TypeError`, `ValueError`, `AttributeError`, and the library's
`BotNotFound` exception, which carries the response's `message` value. -/
inductive PyErr where
  | keyError (key : String) : PyErr
  | typeError : PyErr
  | valueError : PyErr
  | attributeError : PyErr
  | botNotFound (message : JSON) : PyErr

/-- Python `int(x)` on a decoded JSON value: integers pass through, booleans
become 0 or 1, strings are parsed (`ValueError` on failure), anything else
raises `TypeError`. -/
def pyToInt : JSON → Except PyErr Int
  | .num n => Except.ok n
  | .bool b => Except.ok (if b then 1 else 0)
  | .str s =>
    match pyStrToInt s with
    | some n => Except.ok n
    | none => Except.error PyErr.valueError
  | _ => Except.error PyErr.typeError

/-- Guard for calling a string method such as `.split()`: only a string value
has the attribute; anything else raises `AttributeError`. -/
def asStr : JSON → Except PyErr String
  | .str s => Except.ok s
  | _ => Except.error PyErr.attributeError

/-- Python `x[key]` with a string key: object lookup (`KeyError` when the key
is absent); any non-object raises `TypeError`. -/
def pyIndex (j : JSON) (key : String) : Except PyErr JSON :=
  match j with
  | .obj fs =>
    match lookupKey key fs with
    | some v => Except.ok v
    | none => Except.error (PyErr.keyError key)
  | _ => Except.error PyErr.typeError

/-- Boolean list prefix test, used for the substring test below. -/
def isPrefixList : List Char → List Char → Bool
  | [], _ => true
  | _ :: _, [] => false
  | a :: as, b :: bs => a == b && isPrefixList as bs

/-- Boolean substring test over character lists. -/
def hasSubList : List Char → List Char → Bool
  | needle, [] => isPrefixList needle []
  | needle, c :: rest => isPrefixList needle (c :: rest) || hasSubList needle rest

/-- Python `key in x` for a string key: key membership for objects, element
membership for arrays, substring test for strings, `TypeError` otherwise. -/
def pyIn (key : String) (j : JSON) : Except PyErr Bool :=
  match j with
  | .obj fs => Except.ok (lookupKey key fs).isSome
  | .arr xs => Except.ok (xs.any (fun x => eqStr x key))
  | .str s => Except.ok (hasSubList key.toList s.toList)
  | _ => Except.error PyErr.typeError

mutual

/-- Python `repr` of a decoded JSON value. String escaping and quote choice
are simplified to plain single quotes; only scalar values reach `repr` in the
behaviours settled here. -/
def pyRepr : JSON → String
  | .null => "None"
  | .bool b => if b then "True" else "False"
  | .num n => toString n
  | .str s => "'" ++ s ++ "'"
  | .arr xs => "[" ++ pyReprItems xs ++ "]"
  | .obj fs => "\x7b" ++ pyReprFields fs ++ "\x7d"

/-- Comma-separated reprs of list items. -/
def pyReprItems : List JSON → String
  | [] => ""
  | [x] => pyRepr x
  | x :: y :: rest => pyRepr x ++ ", " ++ pyReprItems (y :: rest)

/-- Comma-separated reprs of dict entries. -/
def pyReprFields : List (String × JSON) → String
  | [] => ""
  | [(k, v)] => "'" ++ k ++ "': " ++ pyRepr v
  | (k, v) :: e :: rest => "'" ++ k ++ "': " ++ pyRepr v ++ ", " ++ pyReprFields (e :: rest)

end

/-- Python `str(x)` as evaluated inside an f-string: strings pass through
unquoted, every other value renders as its `repr`. -/
def pyStr : JSON → String
  | .str s => s
  | j => pyRepr j

/-- The `types.Bot` dataclass. Fields the client stores without coercion keep
their decoded JSON value (the dataclass performs no type checking); coerced
fields carry their coerced type. `photo_url` is the one field with a default
(`None`), used when a constructor call omits it. -/
structure Bot where
  id : JSON
  name : JSON
  username : JSON
  description : JSON
  warn : JSON
  msg : JSON
  category : JSON
  groups : Bool
  inline : Bool
  developer_id : Int
  stars : JSON
  votes : JSON
  vote : JSON
  tags : List String
  languages : List String
  offline : Bool
  photo : JSON
  photo_url : Option String

/-- Tri-state outcome of `get_user_vote`: an integer vote, Python `False`
(no vote recorded), or Python `None` (unrecognised payload shape). -/
inductive VoteOutcome where
  | vote (n : Int) : VoteOutcome
  | noVote : VoteOutcome
  | unknown : VoteOutcome

/-- The `enums.Category` enumeration. -/
inductive Category where
  | MUSIC | UTILITY | GAMES | STATISTICS | POLL | TELEGRAM
  | FILES | FUN | INFO | NOTIFICATION | MANAGING | MEDIA

/-- Underlying string code (`.value`) of each `Category` member. -/
def Category.value : Category → String
  | .MUSIC => "music"
  | .UTILITY => "utility"
  | .GAMES => "games"
  | .STATISTICS => "stats"
  | .POLL => "poll"
  | .TELEGRAM => "Telegram"
  | .FILES => "file"
  | .FUN => "entertainment"
  | .INFO => "info"
  | .NOTIFICATION => "notifications"
  | .MANAGING => "manager"
  | .MEDIA => "media"

/-- Value given to the `category` query parameter by `category_search`: a
typed `Category` contributes its `.value`, a raw string passes verbatim
(`category.value if isinstance(category, enums.Category) else category`). -/
def categoryParam : Sum Category String → String
  | Sum.inl c => c.value
  | Sum.inr s => s

/-- Tag normalisation shared by every mapping path:
`[word.lstrip("#") for word in raw.split()]`. -/
def mapTags (raw : String) : List String :=
  (pySplit raw).map (fun w => pyLstrip w ['#'])

/-- The `types.Bot(...)` construction shared verbatim by `get_bot_id` and
`search`: field accesses and coercions in the source's argument order, on the
object found under the response's `result` key. -/
def mapBot (photo_base_url : String) (info : JSON) : Except PyErr Bot := do
  let idv ← pyIndex info "id"
  let namev ← pyIndex info "name"
  let usernamev ← pyIndex info "username"
  let descriptionv ← pyIndex info "description"
  let warnv ← pyIndex info "warn"
  let msgv ← pyIndex info "msg"
  let categoryv ← pyIndex info "category"
  let groupsv ← pyIndex info "groups"
  let inlinev ← pyIndex info "inline"
  let developerv ← pyIndex info "developer_id"
  let developerId ← pyToInt developerv
  let starsv ← pyIndex info "stars"
  let votesv ← pyIndex info "votes"
  let votev ← pyIndex info "vote"
  let tagsv ← pyIndex info "tags"
  let tagsS ← asStr tagsv
  let languagesv ← pyIndex info "languages"
  let languagesS ← asStr languagesv
  let offlinev ← pyIndex info "offline"
  let offlineInt ← pyToInt offlinev
  let photov ← pyIndex info "photo"
  Except.ok {
    id := idv
    name := namev
    username := usernamev
    description := descriptionv
    warn := warnv
    msg := msgv
    category := categoryv
    groups := groupsv.truthy
    inline := inlinev.truthy
    developer_id := developerId
    stars := starsv
    votes := votesv
    vote := votev
    tags := mapTags tagsS
    languages := pySplit languagesS
    offline := offlineInt != 0
    photo := photov
    photo_url :=
      if photov.truthy then
        some (photo_base_url ++ "/" ++ pyStr idv ++ ".jpg")
      else none
  }

/-- The `types.Bot(...)` construction used by `category_search`: identical
field accesses and coercions, but the constructor call omits `photo_url`, so
the dataclass default `None` applies. -/
def mapBotCategory (info : JSON) : Except PyErr Bot := do
  let idv ← pyIndex info "id"
  let namev ← pyIndex info "name"
  let usernamev ← pyIndex info "username"
  let descriptionv ← pyIndex info "description"
  let warnv ← pyIndex info "warn"
  let msgv ← pyIndex info "msg"
  let categoryv ← pyIndex info "category"
  let groupsv ← pyIndex info "groups"
  let inlinev ← pyIndex info "inline"
  let developerv ← pyIndex info "developer_id"
  let developerId ← pyToInt developerv
  let starsv ← pyIndex info "stars"
  let votesv ← pyIndex info "votes"
  let votev ← pyIndex info "vote"
  let tagsv ← pyIndex info "tags"
  let tagsS ← asStr tagsv
  let languagesv ← pyIndex info "languages"
  let languagesS ← asStr languagesv
  let offlinev ← pyIndex info "offline"
  let offlineInt ← pyToInt offlinev
  let photov ← pyIndex info "photo"
  Except.ok {
    id := idv
    name := namev
    username := usernamev
    description := descriptionv
    warn := warnv
    msg := msgv
    category := categoryv
    groups := groupsv.truthy
    inline := inlinev.truthy
    developer_id := developerId
    stars := starsv
    votes := votesv
    vote := votev
    tags := mapTags tagsS
    languages := pySplit languagesS
    offline := offlineInt != 0
    photo := photov
    photo_url := none
  }

/-- The sentinel test shared by `get_bot_id` and `get_user_vote`:
`if "message" in data and data["message"] == "bot not found": raise
exceptions.BotNotFound(data["message"])`. -/
def sentinelCheck (data : JSON) : Except PyErr Unit := do
  let has ← pyIn "message" data
  if has then
    let m ← pyIndex data "message"
    if eqStr m "bot not found" then
      Except.error (PyErr.botNotFound m)
    else Except.ok ()
  else Except.ok ()

/-- `get_bot_id`, from the decoded response body onward: sentinel check, then
the `Bot` construction over `data["result"]`. -/
def get_bot_id (photo_base_url : String) (data : JSON) : Except PyErr Bot := do
  sentinelCheck data
  let r ← pyIndex data "result"
  mapBot photo_base_url r

/-- Vote interpretation of a non-sentinel payload: the body of
`get_user_vote` after the sentinel check (`result` key first, then `vote`,
else `None`). -/
def interpretVote (data : JSON) : Except PyErr VoteOutcome := do
  let hasResult ← pyIn "result" data
  if hasResult then
    let rv ← pyIndex data "result"
    let n ← pyToInt rv
    Except.ok (VoteOutcome.vote n)
  else
    let hasVote ← pyIn "vote" data
    if hasVote then Except.ok VoteOutcome.noVote
    else Except.ok VoteOutcome.unknown

/-- `get_user_vote`, from the decoded response body onward: sentinel check,
then vote interpretation. -/
def get_user_vote (data : JSON) : Except PyErr VoteOutcome := do
  sentinelCheck data
  interpretVote data

/-- The `for info in data["result"]` accumulation loop of `search`: maps each
element in order, aborting at the first failure. -/
def mapBots (photo_base_url : String) : List JSON → Except PyErr (List Bot)
  | [] => Except.ok []
  | info :: rest =>
    match mapBot photo_base_url info with
    | Except.error e => Except.error e
    | Except.ok b =>
      match mapBots photo_base_url rest with
      | Except.error e => Except.error e
      | Except.ok bs => Except.ok (b :: bs)

/-- The accumulation loop of `category_search`. -/
def mapBotsCategory : List JSON → Except PyErr (List Bot)
  | [] => Except.ok []
  | info :: rest =>
    match mapBotCategory info with
    | Except.error e => Except.error e
    | Except.ok b =>
      match mapBotsCategory rest with
      | Except.error e => Except.error e
      | Except.ok bs => Except.ok (b :: bs)

/-- Python iteration over a value (`for info in r`): arrays yield their
elements, strings their one-character substrings, dicts their keys; any other
value raises `TypeError`. -/
def iterElems : JSON → Except PyErr (List JSON)
  | .arr xs => Except.ok xs
  | .str s => Except.ok (s.toList.map (fun c => JSON.str (String.mk [c])))
  | .obj fs => Except.ok (fs.map (fun kv => JSON.str kv.1))
  | _ => Except.error PyErr.typeError

/-- `search`, from the decoded response body onward: a falsy `result` value
returns `None`; otherwise every element is mapped in order. -/
def search (photo_base_url : String) (data : JSON) : Except PyErr (Option (List Bot)) := do
  let r ← pyIndex data "result"
  if !r.truthy then Except.ok none
  else do
    let elems ← iterElems r
    let bots ← mapBots photo_base_url elems
    Except.ok (some bots)

/-- `category_search`, from the decoded response body onward: same falsy
check as `search`, with the `photo_url`-less `Bot` construction. -/
def category_search (data : JSON) : Except PyErr (Option (List Bot)) := do
  let r ← pyIndex data "result"
  if !r.truthy then Except.ok none
  else do
    let elems ← iterElems r
    let bots ← mapBotsCategory elems
    Except.ok (some bots)

/-! Shape predicates used in the statements about mapping failure. -/

/-- The seventeen keys the bot constructor call reads, in argument order
(the nullable-valued `warn` is read like every other field). -/
def requiredKeys : List String :=
  ["id", "name", "username", "description", "warn", "msg", "category",
   "groups", "inline", "developer_id", "stars", "votes", "vote", "tags",
   "languages", "offline", "photo"]

/-- All seventeen constructor arguments are present on the object. -/
def botKeysOk (j : JSON) : Bool :=
  requiredKeys.all (fun k => (j.get k).isSome)

/-- A field value carrying a string. -/
def strShaped : Option JSON → Bool
  | some (.str _) => true
  | _ => false

/-- A value Python's `int(x)` rejects with a `TypeError` regardless of any
digit parsing: `None`, a list, or a dict. -/
def intTypeIncompatible : JSON → Bool
  | .null => true
  | .arr _ => true
  | .obj _ => true
  | _ => false

/-- The sentinel predicate on an object body: a `message` field equal to the
string `"bot not found"`. -/
def isSentinel (data : JSON) : Bool :=
  match data.get "message" with
  | some m => eqStr m "bot not found"
  | none => false

/-- A token starting with `#`. -/
def leadsWithHash (t : String) : Bool :=
  match t.toList with
  | c :: _ => c == '#'
  | [] => false

/-! Concrete fixtures, following the spec's reference scenario
(`id=1, photo=true, offline="0", groups=0, inline=1`). -/

/-- Fields of the reference fixture. -/
def sampleFields : List (String × JSON) :=
  [("id", JSON.num 1), ("name", JSON.str "Votebot"),
   ("username", JSON.str "@vote"), ("description", JSON.str "polls"),
   ("warn", JSON.null), ("msg", JSON.str "http://t.me/BotsArchive/79"),
   ("category", JSON.arr [JSON.str "poll"]), ("groups", JSON.num 0),
   ("inline", JSON.num 1), ("developer_id", JSON.num 0),
   ("stars", JSON.num 770), ("votes", JSON.num 189), ("vote", JSON.num 4),
   ("tags", JSON.str "#vote #poll"), ("languages", JSON.str "English"),
   ("offline", JSON.str "0"), ("photo", JSON.bool true)]

/-- The reference fixture as a `result` object. -/
def sampleBotJson : JSON := JSON.obj sampleFields

/-- Pointwise field override on a fixture. -/
def withField (fs : List (String × JSON)) (k : String) (v : JSON) :
    List (String × JSON) :=
  fs.map (fun kv => if kv.1 == k then (k, v) else kv)

/-- The `Bot` the reference fixture maps to under photo base `"B"`. -/
def sampleBot : Bot :=
  { id := JSON.num 1, name := JSON.str "Votebot",
    username := JSON.str "@vote", description := JSON.str "polls",
    warn := JSON.null, msg := JSON.str "http://t.me/BotsArchive/79",
    category := JSON.arr [JSON.str "poll"], groups := false, inline := true,
    developer_id := 0, stars := JSON.num 770, votes := JSON.num 189,
    vote := JSON.num 4, tags := ["vote", "poll"], languages := ["English"],
    offline := false, photo := JSON.bool true,
    photo_url := some "B/1.jpg" }

/-- A response body carrying the sentinel message alongside a mappable
`result`. -/
def sentinelFields : List (String × JSON) :=
  [("message", JSON.str "bot not found"), ("result", sampleBotJson)]

/-- A response body with only a mappable `result`. -/
def resultOnlyFields : List (String × JSON) :=
  [("result", sampleBotJson)]

/-- A vote response carrying both recognised keys. -/
def voteBothFields : List (String × JSON) :=
  [("result", JSON.str "5"), ("vote", JSON.num 3)]

/-- A vote response carrying only the `vote` key. -/
def voteOnlyFields : List (String × JSON) :=
  [("vote", JSON.str "x")]

/-- The reference fixture without its `warn` key. -/
def noWarnFields : List (String × JSON) :=
  sampleFields.filter (fun kv => kv.1 != "warn")

/-- The reference fixture's bot as the category path produces it. -/
def sampleBotNoUrl : Bot := { sampleBot with photo_url := none }

/-- A character sequence made of an optional sign followed by a non-empty
run of decimal digits. -/
def signedDigits : List Char → Bool
  | [] => false
  | c :: rest =>
    if c == '+' || c == '-' then !rest.isEmpty && rest.all Char.isDigit
    else (c :: rest).all Char.isDigit

/-- Domain the offline coercion is claimed to be total on, following the
claim's words: an integer, or a string of decimal digits with an optional
sign. -/
def claimedOfflineDomain : JSON → Bool
  | .num _ => true
  | .str s => signedDigits s.toList
  | _ => false

/-! Inversion and evaluation lemmas. -/

theorem ok_bind {α β : Type} (a : α) (k : α → Except PyErr β) :
    (Except.ok a >>= k) = k a := rfl

theorem error_bind {α β : Type} (e : PyErr) (k : α → Except PyErr β) :
    ((Except.error e : Except PyErr α) >>= k) = Except.error e := rfl

theorem bindOk {α β : Type} {e : Except PyErr α} {k : α → Except PyErr β} {b : β}
    (h : (e >>= k) = Except.ok b) : ∃ a, e = Except.ok a ∧ k a = Except.ok b := by
  cases e with
  | ok a => exact ⟨a, rfl, h⟩
  | error err => exact Except.noConfusion h

theorem pyIndex_ok {j : JSON} {k : String} {v : JSON}
    (h : pyIndex j k = Except.ok v) : j.get k = some v := by
  cases j with
  | obj fs =>
    cases hl : lookupKey k fs with
    | none => simp [pyIndex, hl] at h
    | some w =>
      simp only [pyIndex, hl, Except.ok.injEq] at h
      simp [JSON.get, hl, h]
  | null => simp [pyIndex] at h
  | bool b => simp [pyIndex] at h
  | num n => simp [pyIndex] at h
  | str s => simp [pyIndex] at h
  | arr xs => simp [pyIndex] at h

theorem asStr_ok {v : JSON} {s : String} (h : asStr v = Except.ok s) :
    v = JSON.str s := by
  cases v with
  | str t => simp only [asStr, Except.ok.injEq] at h; rw [h]
  | null => simp [asStr] at h
  | bool b => simp [asStr] at h
  | num n => simp [asStr] at h
  | arr xs => simp [asStr] at h
  | obj fs => simp [asStr] at h

theorem eqStr_true {m : JSON} {lit : String} (h : eqStr m lit = true) :
    m = JSON.str lit := by
  cases m with
  | str s => simp only [eqStr, beq_iff_eq] at h; rw [h]
  | null => exact Bool.noConfusion h
  | bool b => exact Bool.noConfusion h
  | num n => exact Bool.noConfusion h
  | arr xs => exact Bool.noConfusion h
  | obj fs => exact Bool.noConfusion h

/-- Inversion of a successful bot mapping: every constructor argument was
looked up, the coercions succeeded, and the result is the record built from
those values. -/
theorem mapBot_ok_elim {base : String} {j : JSON} {b : Bot}
    (h : mapBot base j = Except.ok b) :
    ∃ idv namev usernamev descriptionv warnv msgv categoryv groupsv inlinev
      developerv developerId starsv votesv votev tagsS languagesS offlinev
      offlineInt photov,
      j.get "id" = some idv ∧ j.get "name" = some namev ∧
      j.get "username" = some usernamev ∧ j.get "description" = some descriptionv ∧
      j.get "warn" = some warnv ∧ j.get "msg" = some msgv ∧
      j.get "category" = some categoryv ∧ j.get "groups" = some groupsv ∧
      j.get "inline" = some inlinev ∧ j.get "developer_id" = some developerv ∧
      pyToInt developerv = Except.ok developerId ∧ j.get "stars" = some starsv ∧
      j.get "votes" = some votesv ∧ j.get "vote" = some votev ∧
      j.get "tags" = some (JSON.str tagsS) ∧
      j.get "languages" = some (JSON.str languagesS) ∧
      j.get "offline" = some offlinev ∧ pyToInt offlinev = Except.ok offlineInt ∧
      j.get "photo" = some photov ∧
      b = { id := idv, name := namev, username := usernamev,
            description := descriptionv, warn := warnv, msg := msgv,
            category := categoryv, groups := groupsv.truthy,
            inline := inlinev.truthy, developer_id := developerId,
            stars := starsv, votes := votesv, vote := votev,
            tags := mapTags tagsS, languages := pySplit languagesS,
            offline := offlineInt != 0, photo := photov,
            photo_url := if photov.truthy then
                some (base ++ "/" ++ pyStr idv ++ ".jpg")
              else none } := by
  unfold mapBot at h
  obtain ⟨idv, g1, h⟩ := bindOk h
  obtain ⟨namev, g2, h⟩ := bindOk h
  obtain ⟨usernamev, g3, h⟩ := bindOk h
  obtain ⟨descriptionv, g4, h⟩ := bindOk h
  obtain ⟨warnv, g5, h⟩ := bindOk h
  obtain ⟨msgv, g6, h⟩ := bindOk h
  obtain ⟨categoryv, g7, h⟩ := bindOk h
  obtain ⟨groupsv, g8, h⟩ := bindOk h
  obtain ⟨inlinev, g9, h⟩ := bindOk h
  obtain ⟨developerv, g10, h⟩ := bindOk h
  obtain ⟨developerId, g11, h⟩ := bindOk h
  obtain ⟨starsv, g12, h⟩ := bindOk h
  obtain ⟨votesv, g13, h⟩ := bindOk h
  obtain ⟨votev, g14, h⟩ := bindOk h
  obtain ⟨tagsv, g15, h⟩ := bindOk h
  obtain ⟨tagsS, g16, h⟩ := bindOk h
  obtain ⟨languagesv, g17, h⟩ := bindOk h
  obtain ⟨languagesS, g18, h⟩ := bindOk h
  obtain ⟨offlinev, g19, h⟩ := bindOk h
  obtain ⟨offlineInt, g20, h⟩ := bindOk h
  obtain ⟨photov, g21, h⟩ := bindOk h
  cases h
  exact ⟨idv, namev, usernamev, descriptionv, warnv, msgv, categoryv, groupsv,
    inlinev, developerv, developerId, starsv, votesv, votev, tagsS, languagesS,
    offlinev, offlineInt, photov,
    pyIndex_ok g1, pyIndex_ok g2, pyIndex_ok g3, pyIndex_ok g4, pyIndex_ok g5,
    pyIndex_ok g6, pyIndex_ok g7, pyIndex_ok g8, pyIndex_ok g9, pyIndex_ok g10,
    g11, pyIndex_ok g12, pyIndex_ok g13, pyIndex_ok g14,
    asStr_ok g16 ▸ pyIndex_ok g15, asStr_ok g18 ▸ pyIndex_ok g17,
    pyIndex_ok g19, g20, pyIndex_ok g21, rfl⟩

/-- Inversion of a successful category-path bot mapping: same lookups and
coercions, `photo_url` fixed to `none`. -/
theorem mapBotCategory_ok_elim {j : JSON} {b : Bot}
    (h : mapBotCategory j = Except.ok b) :
    ∃ idv namev usernamev descriptionv warnv msgv categoryv groupsv inlinev
      developerv developerId starsv votesv votev tagsS languagesS offlinev
      offlineInt photov,
      j.get "id" = some idv ∧ j.get "name" = some namev ∧
      j.get "username" = some usernamev ∧ j.get "description" = some descriptionv ∧
      j.get "warn" = some warnv ∧ j.get "msg" = some msgv ∧
      j.get "category" = some categoryv ∧ j.get "groups" = some groupsv ∧
      j.get "inline" = some inlinev ∧ j.get "developer_id" = some developerv ∧
      pyToInt developerv = Except.ok developerId ∧ j.get "stars" = some starsv ∧
      j.get "votes" = some votesv ∧ j.get "vote" = some votev ∧
      j.get "tags" = some (JSON.str tagsS) ∧
      j.get "languages" = some (JSON.str languagesS) ∧
      j.get "offline" = some offlinev ∧ pyToInt offlinev = Except.ok offlineInt ∧
      j.get "photo" = some photov ∧
      b = { id := idv, name := namev, username := usernamev,
            description := descriptionv, warn := warnv, msg := msgv,
            category := categoryv, groups := groupsv.truthy,
            inline := inlinev.truthy, developer_id := developerId,
            stars := starsv, votes := votesv, vote := votev,
            tags := mapTags tagsS, languages := pySplit languagesS,
            offline := offlineInt != 0, photo := photov,
            photo_url := none } := by
  unfold mapBotCategory at h
  obtain ⟨idv, g1, h⟩ := bindOk h
  obtain ⟨namev, g2, h⟩ := bindOk h
  obtain ⟨usernamev, g3, h⟩ := bindOk h
  obtain ⟨descriptionv, g4, h⟩ := bindOk h
  obtain ⟨warnv, g5, h⟩ := bindOk h
  obtain ⟨msgv, g6, h⟩ := bindOk h
  obtain ⟨categoryv, g7, h⟩ := bindOk h
  obtain ⟨groupsv, g8, h⟩ := bindOk h
  obtain ⟨inlinev, g9, h⟩ := bindOk h
  obtain ⟨developerv, g10, h⟩ := bindOk h
  obtain ⟨developerId, g11, h⟩ := bindOk h
  obtain ⟨starsv, g12, h⟩ := bindOk h
  obtain ⟨votesv, g13, h⟩ := bindOk h
  obtain ⟨votev, g14, h⟩ := bindOk h
  obtain ⟨tagsv, g15, h⟩ := bindOk h
  obtain ⟨tagsS, g16, h⟩ := bindOk h
  obtain ⟨languagesv, g17, h⟩ := bindOk h
  obtain ⟨languagesS, g18, h⟩ := bindOk h
  obtain ⟨offlinev, g19, h⟩ := bindOk h
  obtain ⟨offlineInt, g20, h⟩ := bindOk h
  obtain ⟨photov, g21, h⟩ := bindOk h
  cases h
  exact ⟨idv, namev, usernamev, descriptionv, warnv, msgv, categoryv, groupsv,
    inlinev, developerv, developerId, starsv, votesv, votev, tagsS, languagesS,
    offlinev, offlineInt, photov,
    pyIndex_ok g1, pyIndex_ok g2, pyIndex_ok g3, pyIndex_ok g4, pyIndex_ok g5,
    pyIndex_ok g6, pyIndex_ok g7, pyIndex_ok g8, pyIndex_ok g9, pyIndex_ok g10,
    g11, pyIndex_ok g12, pyIndex_ok g13, pyIndex_ok g14,
    asStr_ok g16 ▸ pyIndex_ok g15, asStr_ok g18 ▸ pyIndex_ok g17,
    pyIndex_ok g19, g20, pyIndex_ok g21, rfl⟩

/-- Firing case of the shared sentinel test on an object body. -/
theorem sentinelCheck_fires {fs : List (String × JSON)}
    (h : isSentinel (JSON.obj fs) = true) :
    sentinelCheck (JSON.obj fs) =
      Except.error (PyErr.botNotFound (JSON.str "bot not found")) := by
  cases hl : lookupKey "message" fs with
  | none => simp [isSentinel, JSON.get, hl] at h
  | some m =>
    simp only [isSentinel, JSON.get, hl] at h
    have hm : m = JSON.str "bot not found" := eqStr_true h
    subst hm
    simp [sentinelCheck, pyIn, pyIndex, hl, eqStr, ok_bind]

/-- Passing case of the shared sentinel test on an object body. -/
theorem sentinelCheck_passes {fs : List (String × JSON)}
    (h : isSentinel (JSON.obj fs) = false) :
    sentinelCheck (JSON.obj fs) = Except.ok () := by
  cases hl : lookupKey "message" fs with
  | none => simp [sentinelCheck, pyIn, hl, ok_bind]
  | some m =>
    simp only [isSentinel, JSON.get, hl] at h
    simp [sentinelCheck, pyIn, pyIndex, hl, h, ok_bind]

/-- Elementwise reading of a successful `search` accumulation loop. -/
theorem mapBots_nth {base : String} : ∀ {xs : List JSON} {bs : List Bot},
    mapBots base xs = Except.ok bs →
    bs.length = xs.length ∧
    ∀ i (h1 : i < xs.length) (h2 : i < bs.length),
      mapBot base (xs.get ⟨i, h1⟩) = Except.ok (bs.get ⟨i, h2⟩) := by
  intro xs
  induction xs with
  | nil =>
    intro bs h
    simp only [mapBots] at h
    cases h
    exact ⟨rfl, fun i h1 h2 => absurd h1 (by simp)⟩
  | cons x rest ih =>
    intro bs h
    simp only [mapBots] at h
    cases hx : mapBot base x with
    | error e => rw [hx] at h; exact Except.noConfusion h
    | ok b =>
      rw [hx] at h
      cases hr : mapBots base rest with
      | error e => rw [hr] at h; exact Except.noConfusion h
      | ok bs2 =>
        rw [hr] at h
        cases h
        obtain ⟨hlen, hnth⟩ := ih hr
        refine ⟨by simp [hlen], ?_⟩
        intro i h1 h2
        cases i with
        | zero => exact hx
        | succ n =>
          exact hnth n (Nat.lt_of_succ_lt_succ h1) (Nat.lt_of_succ_lt_succ h2)

/-- Every bot produced by the `search` loop comes from some input element. -/
theorem mapBots_mem {base : String} : ∀ {xs : List JSON} {bs : List Bot},
    mapBots base xs = Except.ok bs →
    ∀ b, b ∈ bs → ∃ x, x ∈ xs ∧ mapBot base x = Except.ok b := by
  intro xs
  induction xs with
  | nil =>
    intro bs h
    simp only [mapBots] at h
    cases h
    intro b hb
    exact absurd hb (by simp)
  | cons x rest ih =>
    intro bs h
    simp only [mapBots] at h
    cases hx : mapBot base x with
    | error e => rw [hx] at h; exact Except.noConfusion h
    | ok b0 =>
      rw [hx] at h
      cases hr : mapBots base rest with
      | error e => rw [hr] at h; exact Except.noConfusion h
      | ok bs2 =>
        rw [hr] at h
        cases h
        intro b hb
        cases List.mem_cons.mp hb with
        | inl heq => exact ⟨x, List.mem_cons_self x rest, heq ▸ hx⟩
        | inr htail =>
          obtain ⟨x2, hx2, hm2⟩ := ih hr b htail
          exact ⟨x2, List.mem_cons_of_mem x hx2, hm2⟩

/-- Every bot produced by the `category_search` loop comes from some input
element. -/
theorem mapBotsCategory_mem : ∀ {xs : List JSON} {bs : List Bot},
    mapBotsCategory xs = Except.ok bs →
    ∀ b, b ∈ bs → ∃ x, x ∈ xs ∧ mapBotCategory x = Except.ok b := by
  intro xs
  induction xs with
  | nil =>
    intro bs h
    simp only [mapBotsCategory] at h
    cases h
    intro b hb
    exact absurd hb (by simp)
  | cons x rest ih =>
    intro bs h
    simp only [mapBotsCategory] at h
    cases hx : mapBotCategory x with
    | error e => rw [hx] at h; exact Except.noConfusion h
    | ok b0 =>
      rw [hx] at h
      cases hr : mapBotsCategory rest with
      | error e => rw [hr] at h; exact Except.noConfusion h
      | ok bs2 =>
        rw [hr] at h
        cases h
        intro b hb
        cases List.mem_cons.mp hb with
        | inl heq => exact ⟨x, List.mem_cons_self x rest, heq ▸ hx⟩
        | inr htail =>
          obtain ⟨x2, hx2, hm2⟩ := ih hr b htail
          exact ⟨x2, List.mem_cons_of_mem x hx2, hm2⟩

/-! Claim theorems. -/

/-- C1: for every `Bot` produced by the `get_bot_id` or `search` mapping
paths, `photo_url` is `photo_base_url ++ "/" ++ str(id) ++ ".jpg"` exactly
when the source object's `photo` field is truthy, and `none` otherwise; both
operations produce their bots through this one mapping. -/
theorem photo_url_iff_photo_truthy :
    (∀ base j b, mapBot base j = Except.ok b →
      ∃ idv pv, j.get "id" = some idv ∧ j.get "photo" = some pv ∧
        b.photo_url =
          (if pv.truthy then some (base ++ "/" ++ pyStr idv ++ ".jpg")
           else none)) ∧
    (∀ base data b, get_bot_id base data = Except.ok b →
      ∃ r, pyIndex data "result" = Except.ok r ∧ mapBot base r = Except.ok b) ∧
    (∀ base data bs, search base data = Except.ok (some bs) →
      ∀ b, b ∈ bs → ∃ r, mapBot base r = Except.ok b) := by
  refine ⟨?_, ?_, ?_⟩
  · intro base j b hm
    obtain ⟨idv, namev, usernamev, descriptionv, warnv, msgv, categoryv,
      groupsv, inlinev, developerv, developerId, starsv, votesv, votev, tagsS,
      languagesS, offlinev, offlineInt, photov, p1, p2, p3, p4, p5, p6, p7, p8,
      p9, p10, p11, p12, p13, p14, p15, p16, p17, p18, p19, hb⟩ :=
      mapBot_ok_elim hm
    exact ⟨idv, photov, p1, p19, by rw [hb]⟩
  · intro base data b h
    unfold get_bot_id at h
    obtain ⟨u, hu, h⟩ := bindOk h
    obtain ⟨r, hr, h⟩ := bindOk h
    exact ⟨r, hr, h⟩
  · intro base data bs h
    unfold search at h
    obtain ⟨r, hr, h⟩ := bindOk h
    cases ht : r.truthy with
    | false => simp [ht] at h
    | true =>
      simp only [ht, Bool.not_true, Bool.false_eq_true, if_false] at h
      obtain ⟨elems, he, h⟩ := bindOk h
      obtain ⟨bots, hmb, h⟩ := bindOk h
      cases h
      intro b hb
      obtain ⟨x, hx, hmx⟩ := mapBots_mem hmb b hb
      exact ⟨x, hmx⟩

/-- C1 witness at the reference fixture. -/
theorem photo_url_iff_photo_truthy_witness :
    ∃ idv pv, sampleBotJson.get "id" = some idv ∧
      sampleBotJson.get "photo" = some pv ∧
      sampleBot.photo_url =
        (if pv.truthy then some ("B" ++ "/" ++ pyStr idv ++ ".jpg")
         else none) :=
  photo_url_iff_photo_truthy.1 "B" sampleBotJson sampleBot rfl

/-- C2: on an object body whose `message` field equals the literal string
`"bot not found"`, both `get_bot_id` and `get_user_vote` fail with
`BotNotFound` carrying that message, before any mapping or vote
interpretation; on any other object body the sentinel check passes through
to the rest of the operation. -/
theorem sentinel_message_bot_not_found :
    (∀ fs base, isSentinel (JSON.obj fs) = true →
      get_bot_id base (JSON.obj fs) =
        Except.error (PyErr.botNotFound (JSON.str "bot not found")) ∧
      get_user_vote (JSON.obj fs) =
        Except.error (PyErr.botNotFound (JSON.str "bot not found"))) ∧
    (∀ fs base, isSentinel (JSON.obj fs) = false →
      get_bot_id base (JSON.obj fs) =
        (pyIndex (JSON.obj fs) "result" >>= mapBot base) ∧
      get_user_vote (JSON.obj fs) = interpretVote (JSON.obj fs)) := by
  constructor
  · intro fs base h
    constructor
    · simp [get_bot_id, sentinelCheck_fires h, error_bind]
    · simp [get_user_vote, sentinelCheck_fires h, error_bind]
  · intro fs base h
    constructor
    · simp [get_bot_id, sentinelCheck_passes h, ok_bind]
    · simp [get_user_vote, sentinelCheck_passes h, ok_bind]

/-- C2 witness: the sentinel body (even with a mappable `result` present)
fails with `BotNotFound` on both operations, and a sentinel-free body passes
through. -/
theorem sentinel_message_bot_not_found_witness :
    (get_bot_id "B" (JSON.obj sentinelFields) =
        Except.error (PyErr.botNotFound (JSON.str "bot not found")) ∧
      get_user_vote (JSON.obj sentinelFields) =
        Except.error (PyErr.botNotFound (JSON.str "bot not found"))) ∧
    (get_bot_id "B" (JSON.obj resultOnlyFields) =
        (pyIndex (JSON.obj resultOnlyFields) "result" >>= mapBot "B") ∧
      get_user_vote (JSON.obj resultOnlyFields) =
        interpretVote (JSON.obj resultOnlyFields)) :=
  ⟨sentinel_message_bot_not_found.1 sentinelFields "B" rfl,
   sentinel_message_bot_not_found.2 resultOnlyFields "B" rfl⟩

/-- C3: on a non-sentinel object body, `get_user_vote` returns the `result`
value parsed as an integer whenever the `result` key is present (regardless
of a `vote` key, so `result` takes precedence), returns `False` when only a
`vote` key is present, and returns `None` when neither key is present. -/
theorem vote_result_precedence :
    (∀ fs rv n, isSentinel (JSON.obj fs) = false →
      lookupKey "result" fs = some rv → pyToInt rv = Except.ok n →
      get_user_vote (JSON.obj fs) = Except.ok (VoteOutcome.vote n)) ∧
    (∀ fs, isSentinel (JSON.obj fs) = false →
      lookupKey "result" fs = none → (lookupKey "vote" fs).isSome = true →
      get_user_vote (JSON.obj fs) = Except.ok VoteOutcome.noVote) ∧
    (∀ fs, isSentinel (JSON.obj fs) = false →
      lookupKey "result" fs = none → lookupKey "vote" fs = none →
      get_user_vote (JSON.obj fs) = Except.ok VoteOutcome.unknown) := by
  refine ⟨?_, ?_, ?_⟩
  · intro fs rv n hs hres hn
    simp [get_user_vote, sentinelCheck_passes hs, ok_bind, interpretVote,
      pyIn, pyIndex, hres, hn]
  · intro fs hs hres hv
    simp [get_user_vote, sentinelCheck_passes hs, ok_bind, interpretVote,
      pyIn, hres, hv]
  · intro fs hs hres hv
    simp [get_user_vote, sentinelCheck_passes hs, ok_bind, interpretVote,
      pyIn, hres, hv]

/-- C3 witness: `result` wins when both keys are present and parses as an
integer; a lone `vote` key gives `False`; an empty object gives `None`. -/
theorem vote_result_precedence_witness :
    get_user_vote (JSON.obj voteBothFields) =
      Except.ok (VoteOutcome.vote 5) ∧
    get_user_vote (JSON.obj voteOnlyFields) = Except.ok VoteOutcome.noVote ∧
    get_user_vote (JSON.obj []) = Except.ok VoteOutcome.unknown :=
  ⟨vote_result_precedence.1 voteBothFields (JSON.str "5") 5 rfl rfl rfl,
   vote_result_precedence.2.1 voteOnlyFields rfl rfl rfl,
   vote_result_precedence.2.2 [] rfl rfl rfl⟩

theorem dropWhile_head_false {α : Type} (p : α → Bool) :
    ∀ (l : List α) (c : α) (rest : List α),
      l.dropWhile p = c :: rest → p c = false := by
  intro l
  induction l with
  | nil => intro c rest h; exact List.noConfusion h
  | cons a as ih =>
    intro c rest h
    cases hp : p a with
    | true => simp only [List.dropWhile, hp] at h; exact ih c rest h
    | false => simp only [List.dropWhile, hp] at h; cases h; exact hp

theorem mapBotCategory_photo_none {j : JSON} {b : Bot}
    (h : mapBotCategory j = Except.ok b) : b.photo_url = none := by
  obtain ⟨_, _, _, _, _, _, _, _, _, _, _, _, _, _, _, _, _, _, _, _, _, _, _,
    _, _, _, _, _, _, _, _, _, _, _, _, _, _, _, hb⟩ := mapBotCategory_ok_elim h
  rw [hb]

theorem dropWhile_all_false {α : Type} (p : α → Bool) (l : List α)
    (h : ∀ c, c ∈ l → p c = false) : l.dropWhile p = l := by
  cases l with
  | nil => rfl
  | cons a as => simp [List.dropWhile, h a (List.mem_cons_self a as)]

theorem isDigit_not_space {c : Char} (h : c.isDigit = true) :
    pyIsSpace c = false := by
  cases hq : pyIsSpace c with
  | false => rfl
  | true =>
    simp only [pyIsSpace, Bool.or_eq_true, beq_iff_eq, or_assoc] at hq
    rcases hq with rfl | rfl | rfl | rfl | rfl | rfl <;>
      exact absurd h (by decide)

theorem digit_not_underscore {c : Char} (h : c.isDigit = true) :
    (c == '_') = false := by
  cases hq : c == '_' with
  | false => rfl
  | true =>
    rw [eq_of_beq hq] at h
    exact absurd h (by decide)

theorem signedDigits_no_space {l : List Char} (h : signedDigits l = true) :
    ∀ c, c ∈ l → pyIsSpace c = false := by
  cases l with
  | nil => exact Bool.noConfusion h
  | cons a as =>
    simp only [signedDigits] at h
    cases hsign : (a == '+' || a == '-') with
    | true =>
      rw [if_pos hsign, Bool.and_eq_true, List.all_eq_true] at h
      intro c hc
      cases List.mem_cons.mp hc with
      | inl heq =>
        have hsign2 : a = '+' ∨ a = '-' := by simpa using hsign
        rw [heq]
        rcases hsign2 with rfl | rfl <;> decide
      | inr htail => exact isDigit_not_space (h.2 c htail)
    | false =>
      rw [if_neg (by rw [hsign]; exact Bool.noConfusion), List.all_eq_true] at h
      intro c hc
      exact isDigit_not_space (h c hc)

theorem digitsRest_cons_digit {c : Char} {rest : List Char} {acc : Nat}
    (hd : c.isDigit = true) :
    digitsRest (c :: rest) acc =
      digitsRest rest (acc * 10 + (c.toNat - 48)) := by
  rw [digitsRest.eq_def]
  simp [digit_not_underscore hd, hd]

theorem digitsRest_all_digits :
    ∀ (cs : List Char), cs.all Char.isDigit = true →
      ∀ (acc : Nat), ∃ n, digitsRest cs acc = some n := by
  intro cs
  induction cs with
  | nil => intro h acc; exact ⟨acc, rfl⟩
  | cons c rest ih =>
    intro h acc
    simp only [List.all_cons, Bool.and_eq_true] at h
    obtain ⟨hc, hrest⟩ := h
    rw [digitsRest_cons_digit hc]
    exact ih hrest (acc * 10 + (c.toNat - 48))

theorem parseDigits_all_digits {cs : List Char} (hne : cs.isEmpty = false)
    (h : cs.all Char.isDigit = true) : ∃ n, parseDigits cs = some n := by
  cases cs with
  | nil => exact Bool.noConfusion hne
  | cons c rest =>
    simp only [List.all_cons, Bool.and_eq_true] at h
    obtain ⟨hc, hrest⟩ := h
    simp only [parseDigits, hc, if_true]
    exact digitsRest_all_digits rest hrest (c.toNat - 48)

/-- A sign-plus-digits string parses under Python's integer grammar. -/
theorem signedDigits_parse {s : String} (h : signedDigits s.toList = true) :
    ∃ n, pyStrToInt s = some n := by
  have htrim : ((s.toList.dropWhile pyIsSpace).reverse.dropWhile
      pyIsSpace).reverse = s.toList := by
    rw [dropWhile_all_false pyIsSpace s.toList (signedDigits_no_space h),
      dropWhile_all_false pyIsSpace s.toList.reverse
        (fun c hc => signedDigits_no_space h c (List.mem_reverse.mp hc)),
      List.reverse_reverse]
  simp only [pyStrToInt]
  rw [htrim]
  cases hl : s.toList with
  | nil => rw [hl] at h; exact Bool.noConfusion h
  | cons c rest =>
    rw [hl] at h
    simp only [signedDigits] at h
    cases hplus : c == '+' with
    | true =>
      have hcond : (c == '+' || c == '-') = true := by rw [hplus]; rfl
      rw [if_pos hcond, Bool.and_eq_true] at h
      obtain ⟨m, hm⟩ := parseDigits_all_digits (by simpa using h.1) h.2
      exact ⟨Int.ofNat m, by simp [hplus, hm]⟩
    | false =>
      cases hminus : c == '-' with
      | true =>
        have hcond : (c == '+' || c == '-') = true := by
          rw [hplus, hminus]; rfl
        rw [if_pos hcond, Bool.and_eq_true] at h
        obtain ⟨m, hm⟩ := parseDigits_all_digits (by simpa using h.1) h.2
        exact ⟨-(Int.ofNat m), by simp [hplus, hminus, hm]⟩
      | false =>
        have hcond : (c == '+' || c == '-') = false := by
          rw [hplus, hminus]; rfl
        rw [if_neg (by rw [hcond]; exact Bool.noConfusion)] at h
        obtain ⟨m, hm⟩ := parseDigits_all_digits
          (show (c :: rest).isEmpty = false from rfl) h
        exact ⟨Int.ofNat m, by simp [hplus, hminus, hm]⟩

/-- The coercion `int(x)` succeeds on every value of the claimed domain:
integers pass through, and a sign-plus-digits string parses. -/
theorem claimedDomain_pyToInt_ok {v : JSON}
    (h : claimedOfflineDomain v = true) : (pyToInt v).isOk = true := by
  cases v with
  | num n => rfl
  | null => exact Bool.noConfusion h
  | bool b => exact Bool.noConfusion h
  | arr xs => exact Bool.noConfusion h
  | obj fs => exact Bool.noConfusion h
  | str s =>
    simp only [claimedOfflineDomain] at h
    obtain ⟨n, hn⟩ := signedDigits_parse h
    simp [pyToInt, hn, Except.isOk, Except.toBool]

/-- C4 counterexample: the mapper does not strip exactly one leading `#` per
token — Python's `lstrip("#")` strips them all, so the token `"##a"` maps to
`"a"`, not `"#a"`, both in isolation and through the full bot mapping. -/
theorem tags_exactly_one_hash_counterexample :
    mapTags "##a" = ["a"] ∧ mapTags "##a" ≠ ["#a"] ∧
    Except.map Bot.tags
        (mapBot "B" (JSON.obj (withField sampleFields "tags" (JSON.str "##a")))) =
      Except.ok ["a"] := by
  refine ⟨rfl, ?_, rfl⟩
  decide

/-- C4 (amended): the mapper splits the raw tags string on whitespace and
strips all leading `#` characters from each token, preserving order and
performing no deduplication; consequently `"#a #b #c"` maps to
`["a","b","c"]` and no produced token starts with `#`. -/
theorem tags_strip_all_leading_hashes :
    (∀ raw t, t ∈ mapTags raw → leadsWithHash t = false) ∧
    mapTags "#a #b #c" = ["a", "b", "c"] ∧
    mapTags "#b #a #a" = ["b", "a", "a"] ∧
    (∀ base j b s, mapBot base j = Except.ok b →
      j.get "tags" = some (JSON.str s) → b.tags = mapTags s) := by
  refine ⟨?_, rfl, rfl, ?_⟩
  · intro raw t ht
    obtain ⟨w, hw, hmap⟩ := List.mem_map.mp ht
    rw [← hmap]
    unfold leadsWithHash pyLstrip
    cases hd : w.toList.dropWhile (fun c => (['#'].contains c)) with
    | nil => rfl
    | cons c rest =>
      have hc := dropWhile_head_false _ w.toList c rest hd
      simp only [List.contains, List.elem] at hc
      have hc2 : (c == '#') = false := by
        cases hq : c == '#' with
        | false => rfl
        | true => simp [hq] at hc
      exact hc2
  · intro base j b s hm hs
    obtain ⟨idv, namev, usernamev, descriptionv, warnv, msgv, categoryv,
      groupsv, inlinev, developerv, developerId, starsv, votesv, votev, tagsS,
      languagesS, offlinev, offlineInt, photov, p1, p2, p3, p4, p5, p6, p7, p8,
      p9, p10, p11, p12, p13, p14, p15, p16, p17, p18, p19, hb⟩ :=
      mapBot_ok_elim hm
    have heq : JSON.str s = JSON.str tagsS := Option.some.inj (hs.symm.trans p15)
    injection heq with heq2
    rw [hb, heq2]

/-- C4 witness: a stripped token has no leading hash, and the reference
fixture's mapped tags equal the normalisation of its raw tags string. -/
theorem tags_strip_all_leading_hashes_witness :
    leadsWithHash "a" = false ∧ sampleBot.tags = mapTags "#vote #poll" :=
  ⟨tags_strip_all_leading_hashes.1 "##a" "a" (by decide),
   tags_strip_all_leading_hashes.2.2.2 "B" sampleBotJson sampleBot
      "#vote #poll" rfl rfl⟩

/-- C5: a falsy `result` value (empty array, `null`, and every other falsy
value) makes `search` and `category_search` return `None` — not an empty
sequence and not an error — while a non-empty `result` array yields the
mapped bots in the order received. -/
theorem falsy_result_returns_none :
    (∀ base fs rv, lookupKey "result" fs = some rv → rv.truthy = false →
      search base (JSON.obj fs) = Except.ok none ∧
      category_search (JSON.obj fs) = Except.ok none) ∧
    (∀ base fs xs bs, lookupKey "result" fs = some (JSON.arr xs) →
      xs.isEmpty = false → mapBots base xs = Except.ok bs →
      search base (JSON.obj fs) = Except.ok (some bs)) ∧
    (∀ fs xs bs, lookupKey "result" fs = some (JSON.arr xs) →
      xs.isEmpty = false → mapBotsCategory xs = Except.ok bs →
      category_search (JSON.obj fs) = Except.ok (some bs)) ∧
    (∀ base xs bs, mapBots base xs = Except.ok bs →
      bs.length = xs.length ∧
      ∀ i (h1 : i < xs.length) (h2 : i < bs.length),
        mapBot base (xs.get ⟨i, h1⟩) = Except.ok (bs.get ⟨i, h2⟩)) := by
  refine ⟨?_, ?_, ?_, ?_⟩
  · intro base fs rv hres ht
    constructor
    · simp [search, pyIndex, hres, ok_bind, ht]
    · simp [category_search, pyIndex, hres, ok_bind, ht]
  · intro base fs xs bs hres hne hmb
    simp [search, pyIndex, hres, ok_bind, JSON.truthy, hne, iterElems, hmb]
  · intro fs xs bs hres hne hmb
    simp [category_search, pyIndex, hres, ok_bind, JSON.truthy, hne,
      iterElems, hmb]
  · intro base xs bs h
    exact mapBots_nth h

/-- C5 witness: an empty `result` array returns `None` on both operations;
a singleton `result` returns the one mapped bot. -/
theorem falsy_result_returns_none_witness :
    (search "B" (JSON.obj [("result", JSON.arr [])]) = Except.ok none ∧
      category_search (JSON.obj [("result", JSON.arr [])]) = Except.ok none) ∧
    search "B" (JSON.obj [("result", JSON.arr [sampleBotJson])]) =
      Except.ok (some [sampleBot]) :=
  ⟨falsy_result_returns_none.1 "B" [("result", JSON.arr [])]
      (JSON.arr []) rfl rfl,
   falsy_result_returns_none.2.1 "B" [("result", JSON.arr [sampleBotJson])]
      [sampleBotJson] [sampleBot] rfl rfl rfl⟩

/-- C6: every `Bot` produced by the `category_search` mapping path has an
absent `photo_url`, even when its `photo` field is truthy — in contrast with
the `get_bot_id` and `search` path, which derives a URL for the same input. -/
theorem category_search_photo_url_absent :
    (∀ j b, mapBotCategory j = Except.ok b → b.photo_url = none) ∧
    (∀ fs bs, category_search (JSON.obj fs) = Except.ok (some bs) →
      ∀ b, b ∈ bs → b.photo_url = none) ∧
    Except.map Bot.photo_url (mapBotCategory sampleBotJson) =
      Except.ok none ∧
    Except.map Bot.photo_url (mapBot "B" sampleBotJson) =
      Except.ok (some "B/1.jpg") := by
  refine ⟨fun j b h => mapBotCategory_photo_none h, ?_, rfl, rfl⟩
  intro fs bs h
  unfold category_search at h
  obtain ⟨r, hr, h⟩ := bindOk h
  cases ht : r.truthy with
  | false => simp [ht] at h
  | true =>
    simp only [ht, Bool.not_true, Bool.false_eq_true, if_false] at h
    obtain ⟨elems, he, h⟩ := bindOk h
    obtain ⟨bots, hmb, h⟩ := bindOk h
    cases h
    intro b hb
    obtain ⟨x, hx, hmx⟩ := mapBotsCategory_mem hmb b hb
    exact mapBotCategory_photo_none hmx

/-- C6 witness: the reference fixture (whose `photo` is `true`) maps on the
category path to a bot with no `photo_url`. -/
theorem category_search_photo_url_absent_witness :
    sampleBotNoUrl.photo_url = none :=
  category_search_photo_url_absent.1 sampleBotJson sampleBotNoUrl rfl

/-- C7: every mapping path coerces `offline` in two steps (`bool(int(x))`,
so the string `"0"` gives `false`) while `groups` and `inline` are coerced
directly by truthiness; the reference fixture
(`offline="0"`, `groups=0`, `inline=1`, `photo=true`, `id=1`) maps to
`offline=false`, `groups=false`, `inline=true`,
`photo_url="B/1.jpg"` — even though `"0"` itself is truthy. -/
theorem offline_two_step_groups_inline_direct :
    (∀ base j b ov n, mapBot base j = Except.ok b →
      j.get "offline" = some ov → pyToInt ov = Except.ok n →
      b.offline = (n != 0)) ∧
    (∀ base j b gv, mapBot base j = Except.ok b →
      j.get "groups" = some gv → b.groups = gv.truthy) ∧
    (∀ base j b iv, mapBot base j = Except.ok b →
      j.get "inline" = some iv → b.inline = iv.truthy) ∧
    JSON.truthy (JSON.str "0") = true ∧
    mapBot "B" sampleBotJson = Except.ok sampleBot := by
  refine ⟨?_, ?_, ?_, rfl, rfl⟩
  · intro base j b ov n hm hov hn
    obtain ⟨idv, namev, usernamev, descriptionv, warnv, msgv, categoryv,
      groupsv, inlinev, developerv, developerId, starsv, votesv, votev, tagsS,
      languagesS, offlinev, offlineInt, photov, p1, p2, p3, p4, p5, p6, p7, p8,
      p9, p10, p11, p12, p13, p14, p15, p16, p17, p18, p19, hb⟩ :=
      mapBot_ok_elim hm
    have hov2 : ov = offlinev := Option.some.inj (hov.symm.trans p17)
    rw [hov2] at hn
    have hn2 : n = offlineInt := Except.ok.inj (hn.symm.trans p18)
    rw [hb, hn2]
  · intro base j b gv hm hgv
    obtain ⟨idv, namev, usernamev, descriptionv, warnv, msgv, categoryv,
      groupsv, inlinev, developerv, developerId, starsv, votesv, votev, tagsS,
      languagesS, offlinev, offlineInt, photov, p1, p2, p3, p4, p5, p6, p7, p8,
      p9, p10, p11, p12, p13, p14, p15, p16, p17, p18, p19, hb⟩ :=
      mapBot_ok_elim hm
    have hgv2 : gv = groupsv := Option.some.inj (hgv.symm.trans p8)
    rw [hb, hgv2]
  · intro base j b iv hm hiv
    obtain ⟨idv, namev, usernamev, descriptionv, warnv, msgv, categoryv,
      groupsv, inlinev, developerv, developerId, starsv, votesv, votev, tagsS,
      languagesS, offlinev, offlineInt, photov, p1, p2, p3, p4, p5, p6, p7, p8,
      p9, p10, p11, p12, p13, p14, p15, p16, p17, p18, p19, hb⟩ :=
      mapBot_ok_elim hm
    have hiv2 : iv = inlinev := Option.some.inj (hiv.symm.trans p9)
    rw [hb, hiv2]

/-- C7 witness: the coercion rules applied at the reference fixture. -/
theorem offline_two_step_groups_inline_direct_witness :
    sampleBot.offline = ((0 : Int) != 0) ∧
    sampleBot.groups = (JSON.num 0).truthy ∧
    sampleBot.inline = (JSON.num 1).truthy :=
  ⟨offline_two_step_groups_inline_direct.1 "B" sampleBotJson sampleBot
      (JSON.str "0") 0 rfl rfl rfl,
   offline_two_step_groups_inline_direct.2.1 "B" sampleBotJson sampleBot
      (JSON.num 0) rfl rfl,
   offline_two_step_groups_inline_direct.2.2.1 "B" sampleBotJson sampleBot
      (JSON.num 1) rfl rfl⟩

/-- C8: for every `Category` member and every string equal to its underlying
code, `category_search` builds the same `category` query-parameter value. -/
theorem category_enum_string_same_param :
    ∀ c s, s = Category.value c →
      categoryParam (Sum.inl c) = categoryParam (Sum.inr s) := by
  intro c s h
  simp [categoryParam, h]

/-- C8 witness at `MUSIC` / `"music"`. -/
theorem category_enum_string_same_param_witness :
    categoryParam (Sum.inl Category.MUSIC) = categoryParam (Sum.inr "music") :=
  category_enum_string_same_param Category.MUSIC "music" rfl

/-- C9 counterexample: the claim exempts the nullable `warn` from the
absent-field failure rule, but an object carrying every field except the
`warn` key — otherwise perfectly shaped — still fails, with a `KeyError` on
`"warn"` rather than mapping to a `Bot`. -/
theorem warn_key_required_counterexample :
    mapBot "B" (JSON.obj noWarnFields) =
      Except.error (PyErr.keyError "warn") ∧
    (JSON.obj noWarnFields).get "warn" = none ∧
    (JSON.obj noWarnFields).get "id" = some (JSON.num 1) ∧
    mapBot "B" sampleBotJson = Except.ok sampleBot :=
  ⟨rfl, rfl, rfl, rfl⟩

/-- C10 counterexample: the offline coercion is total on more than integers
and sign-plus-digits strings — Python's `int` also strips surrounding
whitespace, so on the fixture with `offline=" 5 "` (outside the claimed
domain) the mapping still returns a `Bot` instead of raising. -/
theorem offline_claimed_domain_counterexample :
    claimedOfflineDomain (JSON.str " 5 ") = false ∧
    mapBot "B" (JSON.obj (withField sampleFields "offline" (JSON.str " 5 "))) =
      Except.ok { sampleBot with offline := true } :=
  ⟨rfl, rfl⟩

theorem mapBot_ok_keys {base : String} {j : JSON} {b : Bot}
    (h : mapBot base j = Except.ok b) : botKeysOk j = true := by
  obtain ⟨idv, namev, usernamev, descriptionv, warnv, msgv, categoryv,
    groupsv, inlinev, developerv, developerId, starsv, votesv, votev, tagsS,
    languagesS, offlinev, offlineInt, photov, p1, p2, p3, p4, p5, p6, p7, p8,
    p9, p10, p11, p12, p13, p14, p15, p16, p17, p18, p19, hb⟩ :=
    mapBot_ok_elim h
  simp [botKeysOk, requiredKeys, p1, p2, p3, p4, p5, p6, p7, p8, p9, p10,
    p12, p13, p14, p15, p16, p17, p19]

theorem mapBotCategory_ok_keys {j : JSON} {b : Bot}
    (h : mapBotCategory j = Except.ok b) : botKeysOk j = true := by
  obtain ⟨idv, namev, usernamev, descriptionv, warnv, msgv, categoryv,
    groupsv, inlinev, developerv, developerId, starsv, votesv, votev, tagsS,
    languagesS, offlinev, offlineInt, photov, p1, p2, p3, p4, p5, p6, p7, p8,
    p9, p10, p11, p12, p13, p14, p15, p16, p17, p18, p19, hb⟩ :=
    mapBotCategory_ok_elim h
  simp [botKeysOk, requiredKeys, p1, p2, p3, p4, p5, p6, p7, p8, p9, p10,
    p12, p13, p14, p15, p16, p17, p19]

/-- C9 (amended): the bot mapping (on both its variants) fails — and never
silently defaults a field — whenever any of the seventeen constructor
arguments is absent, the nullable-valued `warn`'s key included; it also
fails on a non-string `tags` or `languages` value and on a `developer_id` or
`offline` value with no integer interpretation (`null`, an array or an
object). A successful mapping has every key present, and passes the `warn`
value — possibly `null` — through unchanged: `warn` is nullable in value
only. -/
theorem mapping_requires_all_fields :
    (∀ base j b, mapBot base j = Except.ok b → botKeysOk j = true) ∧
    (∀ j b, mapBotCategory j = Except.ok b → botKeysOk j = true) ∧
    (∀ base j, botKeysOk j = false →
      (mapBot base j).isOk = false ∧ (mapBotCategory j).isOk = false) ∧
    (∀ base j v, j.get "tags" = some v → strShaped (some v) = false →
      (mapBot base j).isOk = false) ∧
    (∀ base j v, j.get "languages" = some v → strShaped (some v) = false →
      (mapBot base j).isOk = false) ∧
    (∀ base j v, j.get "developer_id" = some v →
      intTypeIncompatible v = true → (mapBot base j).isOk = false) ∧
    (∀ base j v, j.get "offline" = some v → intTypeIncompatible v = true →
      (mapBot base j).isOk = false) ∧
    (∀ base j b wv, mapBot base j = Except.ok b → j.get "warn" = some wv →
      b.warn = wv) := by
  refine ⟨fun base j b h => mapBot_ok_keys h,
    fun j b h => mapBotCategory_ok_keys h, ?_, ?_, ?_, ?_, ?_, ?_⟩
  · intro base j hk
    constructor
    · cases hm : mapBot base j with
      | error e => rfl
      | ok b => rw [mapBot_ok_keys hm] at hk; exact Bool.noConfusion hk
    · cases hm : mapBotCategory j with
      | error e => rfl
      | ok b => rw [mapBotCategory_ok_keys hm] at hk; exact Bool.noConfusion hk
  · intro base j v hv hshape
    cases hm : mapBot base j with
    | error e => rfl
    | ok b =>
      exfalso
      obtain ⟨idv, namev, usernamev, descriptionv, warnv, msgv, categoryv,
        groupsv, inlinev, developerv, developerId, starsv, votesv, votev,
        tagsS, languagesS, offlinev, offlineInt, photov, p1, p2, p3, p4, p5,
        p6, p7, p8, p9, p10, p11, p12, p13, p14, p15, p16, p17, p18, p19,
        hb⟩ := mapBot_ok_elim hm
      have hveq : v = JSON.str tagsS := Option.some.inj (hv.symm.trans p15)
      rw [hveq] at hshape
      exact Bool.noConfusion hshape
  · intro base j v hv hshape
    cases hm : mapBot base j with
    | error e => rfl
    | ok b =>
      exfalso
      obtain ⟨idv, namev, usernamev, descriptionv, warnv, msgv, categoryv,
        groupsv, inlinev, developerv, developerId, starsv, votesv, votev,
        tagsS, languagesS, offlinev, offlineInt, photov, p1, p2, p3, p4, p5,
        p6, p7, p8, p9, p10, p11, p12, p13, p14, p15, p16, p17, p18, p19,
        hb⟩ := mapBot_ok_elim hm
      have hveq : v = JSON.str languagesS := Option.some.inj (hv.symm.trans p16)
      rw [hveq] at hshape
      exact Bool.noConfusion hshape
  · intro base j v hv hinc
    cases hm : mapBot base j with
    | error e => rfl
    | ok b =>
      exfalso
      obtain ⟨idv, namev, usernamev, descriptionv, warnv, msgv, categoryv,
        groupsv, inlinev, developerv, developerId, starsv, votesv, votev,
        tagsS, languagesS, offlinev, offlineInt, photov, p1, p2, p3, p4, p5,
        p6, p7, p8, p9, p10, p11, p12, p13, p14, p15, p16, p17, p18, p19,
        hb⟩ := mapBot_ok_elim hm
      have hveq : v = developerv := Option.some.inj (hv.symm.trans p10)
      rw [← hveq] at p11
      cases v with
      | null => exact Except.noConfusion p11
      | arr xs => exact Except.noConfusion p11
      | obj fs2 => exact Except.noConfusion p11
      | num n2 => exact Bool.noConfusion hinc
      | bool b2 => exact Bool.noConfusion hinc
      | str s2 => exact Bool.noConfusion hinc
  · intro base j v hv hinc
    cases hm : mapBot base j with
    | error e => rfl
    | ok b =>
      exfalso
      obtain ⟨idv, namev, usernamev, descriptionv, warnv, msgv, categoryv,
        groupsv, inlinev, developerv, developerId, starsv, votesv, votev,
        tagsS, languagesS, offlinev, offlineInt, photov, p1, p2, p3, p4, p5,
        p6, p7, p8, p9, p10, p11, p12, p13, p14, p15, p16, p17, p18, p19,
        hb⟩ := mapBot_ok_elim hm
      have hveq : v = offlinev := Option.some.inj (hv.symm.trans p17)
      rw [← hveq] at p18
      cases v with
      | null => exact Except.noConfusion p18
      | arr xs => exact Except.noConfusion p18
      | obj fs2 => exact Except.noConfusion p18
      | num n2 => exact Bool.noConfusion hinc
      | bool b2 => exact Bool.noConfusion hinc
      | str s2 => exact Bool.noConfusion hinc
  · intro base j b wv hm hwv
    obtain ⟨idv, namev, usernamev, descriptionv, warnv, msgv, categoryv,
      groupsv, inlinev, developerv, developerId, starsv, votesv, votev, tagsS,
      languagesS, offlinev, offlineInt, photov, p1, p2, p3, p4, p5, p6, p7,
      p8, p9, p10, p11, p12, p13, p14, p15, p16, p17, p18, p19, hb⟩ :=
      mapBot_ok_elim hm
    have hwv2 : wv = warnv := Option.some.inj (hwv.symm.trans p5)
    rw [hb, hwv2]

/-- C9 witness: the fixture without its `warn` key fails on both mapping
variants, and the fixture's `null`-valued `warn` passes through. -/
theorem mapping_requires_all_fields_witness :
    ((mapBot "B" (JSON.obj noWarnFields)).isOk = false ∧
      (mapBotCategory (JSON.obj noWarnFields)).isOk = false) ∧
    sampleBot.warn = JSON.null :=
  ⟨mapping_requires_all_fields.2.2.1 "B" (JSON.obj noWarnFields) rfl,
   mapping_requires_all_fields.2.2.2.2.2.2.2 "B" sampleBotJson sampleBot
      JSON.null rfl rfl⟩

/-- C10 (amended): the offline coercion succeeds on every integer and on
every string of decimal digits with an optional sign, but that precondition
is sufficient, not exhaustive — `int()` also accepts, for example, strings
with surrounding whitespace (see the counterexample). Values with no integer
interpretation make the conversion fail and the mapping paths raise instead
of returning a `Bot`: a `null`, array or object `offline` fails on both
mapping variants, and the strings `"true"`, `""` and `"0.5"` fail with a
`ValueError`. -/
theorem offline_coercion_sufficient_domain :
    (∀ v, claimedOfflineDomain v = true → (pyToInt v).isOk = true) ∧
    (∀ base j v, j.get "offline" = some v → intTypeIncompatible v = true →
      (mapBot base j).isOk = false ∧ (mapBotCategory j).isOk = false) ∧
    mapBot "B" (JSON.obj (withField sampleFields "offline" (JSON.str "true"))) =
      Except.error PyErr.valueError ∧
    mapBot "B" (JSON.obj (withField sampleFields "offline" (JSON.str ""))) =
      Except.error PyErr.valueError ∧
    mapBot "B" (JSON.obj (withField sampleFields "offline" (JSON.str "0.5"))) =
      Except.error PyErr.valueError ∧
    mapBotCategory (JSON.obj (withField sampleFields "offline"
      (JSON.str "true"))) = Except.error PyErr.valueError := by
  refine ⟨fun v h => claimedDomain_pyToInt_ok h, ?_, rfl, rfl, rfl, rfl⟩
  intro base j v hv hinc
  constructor
  · cases hm : mapBot base j with
    | error e => rfl
    | ok b =>
      exfalso
      obtain ⟨idv, namev, usernamev, descriptionv, warnv, msgv, categoryv,
        groupsv, inlinev, developerv, developerId, starsv, votesv, votev,
        tagsS, languagesS, offlinev, offlineInt, photov, p1, p2, p3, p4, p5,
        p6, p7, p8, p9, p10, p11, p12, p13, p14, p15, p16, p17, p18, p19,
        hb⟩ := mapBot_ok_elim hm
      have hveq : v = offlinev := Option.some.inj (hv.symm.trans p17)
      rw [← hveq] at p18
      cases v with
      | null => exact Except.noConfusion p18
      | arr xs => exact Except.noConfusion p18
      | obj fs2 => exact Except.noConfusion p18
      | num n2 => exact Bool.noConfusion hinc
      | bool b2 => exact Bool.noConfusion hinc
      | str s2 => exact Bool.noConfusion hinc
  · cases hm : mapBotCategory j with
    | error e => rfl
    | ok b =>
      exfalso
      obtain ⟨idv, namev, usernamev, descriptionv, warnv, msgv, categoryv,
        groupsv, inlinev, developerv, developerId, starsv, votesv, votev,
        tagsS, languagesS, offlinev, offlineInt, photov, p1, p2, p3, p4, p5,
        p6, p7, p8, p9, p10, p11, p12, p13, p14, p15, p16, p17, p18, p19,
        hb⟩ := mapBotCategory_ok_elim hm
      have hveq : v = offlinev := Option.some.inj (hv.symm.trans p17)
      rw [← hveq] at p18
      cases v with
      | null => exact Except.noConfusion p18
      | arr xs => exact Except.noConfusion p18
      | obj fs2 => exact Except.noConfusion p18
      | num n2 => exact Bool.noConfusion hinc
      | bool b2 => exact Bool.noConfusion hinc
      | str s2 => exact Bool.noConfusion hinc

/-- C10 witness: a signed-digit string coerces, and a `null` `offline` makes
both mapping variants fail. -/
theorem offline_coercion_sufficient_domain_witness :
    (pyToInt (JSON.str "+7")).isOk = true ∧
    ((mapBot "B" (JSON.obj (withField sampleFields "offline"
        JSON.null))).isOk = false ∧
      (mapBotCategory (JSON.obj (withField sampleFields "offline"
        JSON.null))).isOk = false) :=
  ⟨offline_coercion_sufficient_domain.1 (JSON.str "+7") rfl,
   offline_coercion_sufficient_domain.2.1 "B"
      (JSON.obj (withField sampleFields "offline" JSON.null)) JSON.null
      rfl rfl⟩

end botsarchive
